import Mathlib

/-!
Verification development for the MediaFranca SVG schema validator
(`src/client/src/lib/mf-schema/tools/validator.py`).

The Python program validates SVG pictogram files.  We embed it shallowly:

* an XML element (as produced by `xml.etree.ElementTree`) becomes `Elem`;
  namespace-resolved tags are stored as literal strings such as
  `"\x7bhttp://www.w3.org/2000/svg\x7dsvg"`, the way ElementTree exposes them;
* a decoded JSON value (`json.loads` output) becomes `Json`;
* `json.loads` itself is an external library call, so the validator is
  parameterised by `jsonLoads : String → Except String Json`, where the
  `Except.error` case models a raised `json.JSONDecodeError` rendered as a
  message string;
* the raw input (a file path handed to `ET.parse`) becomes `RawInput`: either a
  parsed root element, or one of the two exceptional outcomes of `ET.parse`
  (`ParseError` / `FileNotFoundError`, each with its rendered message);
* Python exceptions raised inside the validator become explicit `PyExc` values
  threaded through the pipeline; the entry point `SVGValidator.validate`
  converts them into error strings exactly as the `try`/`except` block at
  validator.py lines 70-81 does, so the Lean function is total by construction;
* the mutable validator object (`self.metadata`, `self.errors`,
  `self.warnings`) becomes `ValidatorState`, threaded explicitly by
  `SVGValidator.validateS`; `SVGValidator.validate` runs it from the
  freshly-constructed state of `__init__`.

Modelled configuration: the optional `jsonschema` dependency is unavailable
(`JSONSCHEMA_AVAILABLE = False`, validator.py lines 25-31), so
`_extract_and_validate_metadata` takes the basic-strategy branch
(lines 180-182).  The full strategy only delegates to the external `jsonschema`
library, which the program consumes as a capability and does not implement.
-/

namespace MFSchema

/-! ## String helpers (Python `in` on strings, `str.strip`) -/

/-- `strStarts n h`: the char list `n` is a prefix of `h`. -/
def strStarts : List Char → List Char → Bool
  | [], _ => true
  | _ :: _, [] => false
  | a :: as, b :: bs => a == b && strStarts as bs

/-- `strFindSub n h`: the char list `n` occurs contiguously inside `h`. -/
def strFindSub (needle : List Char) : List Char → Bool
  | [] => strStarts needle []
  | b :: bs => strStarts needle (b :: bs) || strFindSub needle bs

/-- Python `needle in hay` for strings (substring containment). -/
def strContains (hay needle : String) : Bool :=
  strFindSub needle.toList hay.toList

/-- The whitespace characters Python `str.strip()` removes (ASCII range). -/
def isPySpace (c : Char) : Bool :=
  c == ' ' || c == '\t' || c == '\n' || c == '\r' || c == '\x0b' || c == '\x0c'

/-- Python truthiness of an optional text payload combined with `strip`:
`not s or not s.strip()` — true when the text is `None`, empty, or all
whitespace (stripping would leave the empty, falsy string). -/
def textBlank : Option String → Bool
  | none => true
  | some s => s == "" || s.toList.all isPySpace

/-! ## JSON values (the output of `json.loads`) -/

/-- A decoded JSON value.  Objects keep their fields in insertion order, the
order Python dicts iterate in.  Numbers are modelled as integers: no claim
depends on numeric values, only on truthiness and equality with strings. -/
inductive Json : Type where
  | null : Json
  | bool : Bool → Json
  | num : Int → Json
  | str : String → Json
  | arr : List Json → Json
  | obj : List (String × Json) → Json

/-- First-match field lookup in a JSON object (Python `dict.get` for the
unique-key dicts `json.loads` produces). -/
def lookupField : List (String × Json) → String → Option Json
  | [], _ => none
  | (k, v) :: fs, key => if k == key then some v else lookupField fs key

/-- Python `key in dict` on a JSON object's fields. -/
def hasField (fs : List (String × Json)) (key : String) : Bool :=
  fs.any (fun p => p.1 == key)

/-- Python truthiness of a JSON value. -/
def Json.truthy : Json → Bool
  | .null => false
  | .bool b => b
  | .num n => n != 0
  | .str s => s != ""
  | .arr xs => !xs.isEmpty
  | .obj fs => !fs.isEmpty

/-- Python truthiness of an `Option Json` (Python `None` is falsy). -/
def optTruthy : Option Json → Bool
  | none => false
  | some v => v.truthy

/-! Python `str()` rendering, used by the f-strings in error messages. -/

mutual

/-- Python `repr` of a JSON value (used by `str` on containers). -/
def pyRepr : Json → String
  | .null => "None"
  | .bool true => "True"
  | .bool false => "False"
  | .num n => toString n
  | .str s => "'" ++ s ++ "'"
  | .arr xs => "[" ++ pyReprElems xs ++ "]"
  | .obj fs => "\x7b" ++ pyReprFields fs ++ "\x7d"

/-- Comma-separated reprs of a list's elements. -/
def pyReprElems : List Json → String
  | [] => ""
  | [x] => pyRepr x
  | x :: xs => pyRepr x ++ ", " ++ pyReprElems xs

/-- Comma-separated reprs of an object's fields. -/
def pyReprFields : List (String × Json) → String
  | [] => ""
  | [(k, v)] => "'" ++ k ++ "': " ++ pyRepr v
  | (k, v) :: fs => "'" ++ k ++ "': " ++ pyRepr v ++ ", " ++ pyReprFields fs

end

/-- Python `str()` of a JSON value, as an f-string renders it. -/
def pyStr : Json → String
  | .str s => s
  | v => pyRepr v

/-- Python `str()` of an optional JSON value (`None` renders as `"None"`). -/
def pyStrOpt : Option Json → String
  | none => "None"
  | some v => pyStr v

/-! ## Python exceptions raised inside the validator -/

/-- The exceptions the validator's `try` block can see: its own
`ValidationError`, or a runtime `TypeError`/`AttributeError` from operating on
an unexpectedly-shaped JSON value.  The payload is `str(e)`. -/
inductive PyExc : Type where
  | validationError : String → PyExc
  | typeError : String → PyExc
  | attributeError : String → PyExc
  | keyError : String → PyExc

/-- How `SVGValidator.validate`'s `except` clauses (lines 78-81) render a
caught exception: `ValidationError` as its message, anything else as
`"Unexpected error: " ++ str(e)`. -/
def excToError : PyExc → String
  | .validationError m => m
  | .typeError m => "Unexpected error: " ++ m
  | .attributeError m => "Unexpected error: " ++ m
  | .keyError m => "Unexpected error: " ++ m

/-- The Python type name used in runtime error messages. -/
def pyTypeName : Json → String
  | .null => "NoneType"
  | .bool _ => "bool"
  | .num _ => "int"
  | .str _ => "str"
  | .arr _ => "list"
  | .obj _ => "dict"

/-- Python `needle in container` for a string needle and a JSON container
(`field not in self.metadata`, line 211): key membership for dicts, element
equality for lists, substring for strings, `TypeError` otherwise. -/
def pyIn (needle : String) (container : Json) : Except PyExc Bool :=
  match container with
  | .obj fs => .ok (hasField fs needle)
  | .arr xs => .ok (xs.any (fun x => match x with | .str s => s == needle | _ => false))
  | .str s => .ok (strContains s needle)
  | v => .error (.typeError ("argument of type '" ++ pyTypeName v ++ "' is not iterable"))

/-- Python `container[key]` for a string key (`self.metadata['concepts']`,
lines 216, 328): dict lookup, `TypeError` for lists and strings, `TypeError`
for scalars. -/
def pySubscript (container : Json) (key : String) : Except PyExc Json :=
  match container with
  | .obj fs =>
    match lookupField fs key with
    | some v => .ok v
    | none => .error (.keyError ("'" ++ key ++ "'"))
  | .arr _ => .error (.typeError "list indices must be integers or slices, not str")
  | .str _ => .error (.typeError "string indices must be integers")
  | v => .error (.typeError ("'" ++ pyTypeName v ++ "' object is not subscriptable"))

/-- Python `for x in v` over a JSON value: list elements, dict keys, string
characters; `TypeError` on scalars. -/
def pyIter : Json → Except PyExc (List Json)
  | .arr xs => .ok xs
  | .obj fs => .ok (fs.map (fun p => Json.str p.1))
  | .str s => .ok (s.toList.map (fun c => Json.str (String.singleton c)))
  | v => .error (.typeError ("'" ++ pyTypeName v ++ "' object is not iterable"))

/-- Python `concept.get(key)` (line 329): dict lookup returning `None` when
absent, `AttributeError` when the receiver is not a dict. -/
def pyGet (v : Json) (key : String) : Except PyExc (Option Json) :=
  match v with
  | .obj fs => .ok (lookupField fs key)
  | w => .error (.attributeError ("'" ++ pyTypeName w ++ "' object has no attribute 'get'"))

/-! ## XML elements (the `xml.etree.ElementTree` view) -/

/-- A parsed XML element: namespace-resolved tag, attributes in document
order, optional text payload, child elements in document order. -/
inductive Elem : Type where
  | mk : String → List (String × String) → Option String → List Elem → Elem

/-- The element's (namespace-resolved) tag. -/
def Elem.tag : Elem → String
  | .mk t _ _ _ => t

/-- The element's attribute list (`elem.attrib`). -/
def Elem.attrs : Elem → List (String × String)
  | .mk _ a _ _ => a

/-- The element's text payload (`elem.text`). -/
def Elem.text : Elem → Option String
  | .mk _ _ t _ => t

/-- The element's direct children. -/
def Elem.children : Elem → List Elem
  | .mk _ _ _ c => c

/-- `elem.get(key)`: attribute lookup, first match. -/
def Elem.attr (e : Elem) (key : String) : Option String :=
  (e.attrs.find? (fun p => p.1 == key)).map (fun p => p.2)

/-- `key in elem.attrib`. -/
def Elem.hasAttr (e : Elem) (key : String) : Bool :=
  e.attrs.any (fun p => p.1 == key)

mutual

/-- All proper descendants of an element, in document (preorder) order —
what `findall('.//…')` traverses. -/
def descendantElems : Elem → List Elem
  | .mk _ _ _ cs => descendantList cs

/-- Descendants of a forest, in document order. -/
def descendantList : List Elem → List Elem
  | [] => []
  | c :: cs => c :: (descendantElems c ++ descendantList cs)

end

/-- `elem.find(tag)`: first direct child with the given resolved tag. -/
def findChild (e : Elem) (t : String) : Option Elem :=
  e.children.find? (fun c => c.tag == t)

/-- `elem.findall('.//' + tag)`: all descendants with the given resolved tag,
in document order. -/
def findAllTag (e : Elem) (t : String) : List Elem :=
  (descendantElems e).filter (fun c => c.tag == t)

/-- The SVG namespace URI (`NS['svg']`, line 36). -/
def svgNS : String := "http://www.w3.org/2000/svg"

/-- An ElementTree namespace-resolved tag: `{uri}local`. -/
def nsTag (l : String) : String := "\x7b" ++ svgNS ++ "\x7d" ++ l

/-- The recurring pattern `root.find('svg:x', NS) or root.find('x')`
(e.g. lines 152-154): try the namespaced tag, fall back to the bare tag. -/
def findWithFallback (e : Elem) (l : String) : Option Elem :=
  match findChild e (nsTag l) with
  | some r => some r
  | none => findChild e l

/-! ## The validator pipeline (`class SVGValidator`) -/

namespace SVGValidator

/-- The outcome of handing the input path to `ET.parse` (an external library
call): a parsed root element, or one of the two exceptions `_parse_svg`
catches, each carrying its rendered message / path. -/
inductive RawInput : Type where
  | parsed : Elem → RawInput
  | parseError : String → RawInput
  | fileNotFound : String → RawInput

/-- `_parse_svg` (lines 86-98): convert the two parse exceptions into
`ValidationError`s and require the root tag to be (namespaced or bare)
`svg`. -/
def parseSvg : RawInput → Except PyExc Elem
  | .parseError m => .error (.validationError ("XML parsing error: " ++ m))
  | .fileNotFound p => .error (.validationError ("File not found: " ++ p))
  | .parsed root =>
    if root.tag == nsTag "svg" || root.tag == "svg" then .ok root
    else .error (.validationError ("Root element must be <svg>, found: " ++ root.tag))

/-- `_check_root_attributes` (lines 100-121): `role="img"` and presence of
`aria-labelledby` on the root; namespace declaration is a warning only. -/
def checkRootAttributes (root : Elem) : List String × List String :=
  let e1 := match root.attr "role" with
    | none => ["Missing required attribute on <svg>: role"]
    | some v =>
      if v == "img" then []
      else ["Incorrect value for <svg> attribute 'role': expected 'img', found '" ++ v ++ "'"]
  let e2 := match root.attr "aria-labelledby" with
    | none => ["Missing required attribute on <svg>: aria-labelledby"]
    | some _ => []
  let w :=
    if root.hasAttr "xmlns" then []
    else if strContains root.tag svgNS then []
    else ["SVG namespace not explicitly declared"]
  (e1 ++ e2, w)

/-- The shared per-element logic of `_check_title_and_desc` (lines 123-147)
for one of `title` / `desc`. -/
def titleDescFindings (found : Option Elem) (tagName : String) : List String × List String :=
  match found with
  | none => (["Missing required <" ++ tagName ++ "> element"], [])
  | some el =>
    let es := if textBlank el.text then ["<" ++ tagName ++ "> element is empty"] else []
    let ws := match el.attr "id" with
      | some s => if s == "" then ["<" ++ tagName ++ "> should have an 'id' attribute"] else []
      | none => ["<" ++ tagName ++ "> should have an 'id' attribute"]
    (es, ws)

/-- `_check_title_and_desc` (lines 123-147). -/
def checkTitleAndDesc (root : Elem) : List String × List String :=
  let t := titleDescFindings (findWithFallback root "title") "title"
  let d := titleDescFindings (findWithFallback root "desc") "desc"
  (t.1 ++ d.1, t.2 ++ d.2)

/-- The four advisory content checks on the stylesheet text
(lines 260-273). -/
def stylesheetTextWarnings (styleText : String) : List String :=
  let w1 := if strContains styleText ".f" then []
    else ["Embedded stylesheet should define class '.f'"]
  let w2 := if strContains styleText ".k" then []
    else ["Embedded stylesheet should define class '.k'"]
  let w3 := if strContains styleText "@media (prefers-contrast: high)" then []
    else ["Embedded stylesheet should include '@media (prefers-contrast: high)'"]
  let w4 := if strContains styleText "@media (forced-colors: active)" then []
    else ["Embedded stylesheet should include '@media (forced-colors: active)'"]
  w1 ++ w2 ++ w3 ++ w4

/-- `_check_embedded_stylesheet` (lines 242-273): warnings only. -/
def checkEmbeddedStylesheet (root : Elem) : List String × List String :=
  match findWithFallback root "defs" with
  | none => ([], ["No <defs> element found; embedded stylesheet recommended"])
  | some defs =>
    match findWithFallback defs "style" with
    | none => ([], ["No <style> element in <defs>; embedded stylesheet recommended"])
    | some style => ([], stylesheetTextWarnings ((style.text).getD ""))

/-- Lines 278-280 and 322-324: namespaced `findall('.//svg:g')`, falling back
to bare `findall('.//g')` when it finds nothing. -/
def findGroups (root : Elem) : List Elem :=
  let gs := findAllTag root (nsTag "g")
  if gs.isEmpty then findAllTag root "g" else gs

/-- Line 287: `group.get('id', f'(unnamed group {i})')`. -/
def groupIdName (i : Nat) (g : Elem) : String :=
  (g.attr "id").getD ("(unnamed group " ++ toString i ++ ")")

/-- The body of the per-group loop of `_check_semantic_groups`
(lines 286-314). -/
def checkOneGroup (i : Nat) (g : Elem) : List String × List String :=
  let groupId := groupIdName i g
  let dataConcept := g.attr "data-concept"
  let ws := match dataConcept with
    | none =>
      if g.attr "role" == some "group" then
        ["Group '" ++ groupId ++ "' has role='group' but no data-concept attribute"]
      else []
    | some _ => []
  let es := match dataConcept with
    | some v =>
      if v == "" then []
      else
        let c1 := match g.attr "role" with
          | none => ["Semantic group '" ++ groupId ++ "' missing required attribute: role"]
          | some rv =>
            if rv == "group" then []
            else ["Semantic group '" ++ groupId ++ "' attribute 'role': expected 'group', found '" ++ rv ++ "'"]
        let c2 := match g.attr "tabindex" with
          | none => ["Semantic group '" ++ groupId ++ "' missing required attribute: tabindex"]
          | some tv =>
            if tv == "0" then []
            else ["Semantic group '" ++ groupId ++ "' attribute 'tabindex': expected '0', found '" ++ tv ++ "'"]
        let c3 := match g.attr "aria-label" with
          | none => ["Semantic group '" ++ groupId ++ "' missing required attribute: aria-label"]
          | some _ => []
        c1 ++ c2 ++ c3
    | none => []
  (es, ws)

/-- `_check_semantic_groups` (lines 275-314). -/
def checkSemanticGroups (root : Elem) : List String × List String :=
  let gs := findGroups root
  if gs.isEmpty then ([], ["No <g> elements found; semantic grouping recommended"])
  else
    let outs := gs.enum.map (fun p => checkOneGroup p.1 p.2)
    ((outs.map (fun o => o.1)).flatten, (outs.map (fun o => o.2)).flatten)

/-- The five required top-level metadata fields (line 208), in order. -/
def requiredFields : List String := ["version", "utterance", "nsm", "concepts", "provenance"]

/-- The required-field loop of `_validate_metadata_basic` (lines 210-212):
errors appended before a raising membership test persist. -/
def basicFieldLoop (md : Json) : List String → List String × Option PyExc
  | [] => ([], none)
  | f :: fs =>
    match pyIn f md with
    | .error e => ([], some e)
    | .ok true => basicFieldLoop md fs
    | .ok false =>
      let r := basicFieldLoop md fs
      (("Missing required metadata field: " ++ f) :: r.1, r.2)

/-- The per-concept body of the loop at lines 221-240. -/
def basicConceptFindings (i : Nat) (c : Json) : List String :=
  match c with
  | .obj fs =>
    let eRole := if hasField fs "role" then []
      else ["Missing required field 'role' in metadata.concepts[" ++ toString i ++ "]"]
    let eLabel := if hasField fs "label" then []
      else ["Missing required field 'label' in metadata.concepts[" ++ toString i ++ "]"]
    let isImplicit := ((lookupField fs "implicit").getD (Json.bool false)).truthy
    let eId :=
      if !isImplicit && !hasField fs "id" then
        let role := match lookupField fs "role" with
          | some v => pyStr v
          | none => "unknown"
        ["Missing required field 'id' in metadata.concepts[" ++ toString i ++ "] (role: " ++ role ++ "). Explicit concepts must have an 'id' field."]
      else []
    eRole ++ eLabel ++ eId
  | _ => ["metadata.concepts[" ++ toString i ++ "] must be an object"]

/-- The `concepts`-structure section of `_validate_metadata_basic`
(lines 215-240). -/
def basicConceptsSection (md : Json) : List String × Option PyExc :=
  match pyIn "concepts" md with
  | .error e => ([], some e)
  | .ok false => ([], none)
  | .ok true =>
    match pySubscript md "concepts" with
    | .error e => ([], some e)
    | .ok v =>
      match v with
      | .arr cs =>
        if cs.isEmpty then (["metadata.concepts array is empty"], none)
        else ((cs.enum.map (fun p => basicConceptFindings p.1 p.2)).flatten, none)
      | _ => (["metadata.concepts must be an array"], none)

/-- `_validate_metadata_basic` (lines 206-240): errors produced, plus the
runtime exception it raises, if any, on unexpectedly-shaped metadata. -/
def validateMetadataBasic (md : Json) : List String × Option PyExc :=
  let r1 := basicFieldLoop md requiredFields
  match r1.2 with
  | some e => (r1.1, some e)
  | none =>
    let r2 := basicConceptsSection md
    (r1.1 ++ r2.1, r2.2)

/-- The outcome of `_extract_and_validate_metadata`: findings appended so
far, the value `self.metadata` was assigned (when `json.loads` was reached
and succeeded), and the exception raised, if any. -/
structure ExtractResult where
  errors : List String
  warnings : List String
  mdSet : Option Json
  raised : Option PyExc

/-- `_extract_and_validate_metadata` (lines 149-182), in the modelled
configuration where `jsonschema` is unavailable so the basic strategy runs
(lines 180-182). -/
def extractAndValidateMetadata (jl : String → Except String Json) (root : Elem) : ExtractResult :=
  match findWithFallback root "metadata" with
  | none => ⟨[], [], none, some (.validationError "Missing required <metadata> element")⟩
  | some m =>
    let wId :=
      if m.attr "id" == some "mf-accessibility" then []
      else ["<metadata> id should be 'mf-accessibility', found: " ++ ((m.attr "id").getD "None")]
    if textBlank m.text then
      ⟨[], wId, none, some (.validationError "<metadata> element is empty")⟩
    else
      match jl ((m.text).getD "") with
      | .error msg =>
        ⟨[], wId, none, some (.validationError ("Invalid JSON in <metadata>: " ++ msg))⟩
      | .ok md =>
        let wSkip := ["Skipping JSON schema validation (jsonschema not installed)"]
        let r := validateMetadataBasic md
        ⟨r.1, wId ++ wSkip, some md, r.2⟩

/-- Line 325: the set of truthy `id` attributes over the document's group
elements (a list here; only membership is ever used). -/
def groupIdsOf (root : Elem) : List String :=
  (findGroups root).filterMap (fun g =>
    match g.attr "id" with
    | some s => if s == "" then none else some s
    | none => none)

/-- Python `concept_id in group_ids` where `group_ids` is a set of strings:
only a string JSON value can be a member. -/
def idInGroupIds : Option Json → List String → Bool
  | some (.str s), gids => gids.contains s
  | _, _ => false

/-- The per-concept body of `_check_concept_group_correspondence`
(lines 328-353); `concept.get` raises `AttributeError` on a non-dict. -/
def corrConceptFindings (gids : List String) (c : Json) : Except PyExc (List String × List String) :=
  match c with
  | .obj fs =>
    let conceptId := lookupField fs "id"
    let isImplicit := ((lookupField fs "implicit").getD (Json.bool false)).truthy
    if isImplicit then
      if optTruthy conceptId then
        .ok ([], ["Concept '" ++ pyStrOpt conceptId ++ "' is marked as implicit but has an 'id' field. Implicit concepts typically don't have corresponding SVG groups."])
      else .ok ([], [])
    else if !(optTruthy conceptId) then
      let role := match lookupField fs "role" with
        | some v => pyStr v
        | none => "unknown"
      .ok (["Concept with role '" ++ role ++ "' is not marked as implicit but has no 'id' field"], [])
    else if idInGroupIds conceptId gids then .ok ([], [])
    else .ok (["Metadata concept '" ++ pyStrOpt conceptId ++ "' has no corresponding <g> element in the SVG"], [])
  | w => .error (.attributeError ("'" ++ pyTypeName w ++ "' object has no attribute 'get'"))

/-- The concept loop of `_check_concept_group_correspondence`: findings
appended before a raising iteration persist; the raise stops the loop. -/
def corrLoop (gids : List String) : List Json → List String × List String × Option PyExc
  | [] => ([], [], none)
  | c :: cs =>
    match corrConceptFindings gids c with
    | .error e => ([], [], some e)
    | .ok r =>
      let rest := corrLoop gids cs
      (r.1 ++ rest.1, r.2 ++ rest.2.1, rest.2.2)

/-- A check stage's contribution: findings plus the exception it raised,
if any. -/
structure StageOut where
  errors : List String
  warnings : List String
  raised : Option PyExc

/-- `_check_concept_group_correspondence` (lines 316-353), as a function of
the current `self.metadata`. -/
def checkConceptGroupCorrespondence (root : Elem) (metadata : Option Json) : StageOut :=
  match metadata with
  | none => ⟨[], [], none⟩
  | some md =>
    if !md.truthy then ⟨[], [], none⟩
    else
      match pyIn "concepts" md with
      | .error e => ⟨[], [], some e⟩
      | .ok false => ⟨[], [], none⟩
      | .ok true =>
        match pySubscript md "concepts" with
        | .error e => ⟨[], [], some e⟩
        | .ok v =>
          match pyIter v with
          | .error e => ⟨[], [], some e⟩
          | .ok cs =>
            let r := corrLoop (groupIdsOf root) cs
            ⟨r.1, r.2.1, r.2.2⟩

/-- The `(is_valid, errors, warnings)` triple `validate` returns
(lines 83-84): `is_valid = (len(errors) == 0)`. -/
structure VResult where
  isValid : Bool
  errors : List String
  warnings : List String

/-- The validator object's mutable fields that survive across calls:
`self.metadata`, `self.errors`, `self.warnings`. -/
structure ValidatorState where
  metadata : Option Json
  errors : List String
  warnings : List String

/-- Line 83-84: package the accumulated findings. -/
def mkResult (es ws : List String) : VResult := ⟨es.isEmpty, es, ws⟩

/-- `SVGValidator.validate` (lines 60-84) with the object state threaded
explicitly.  The `try` block runs the stages in order; a raised exception
skips the remaining stages and is appended as a final error by the
`except` clauses.  `self.errors`/`self.warnings` are reset on entry
(lines 67-68); `self.metadata` is not, and is read by the correspondence
check. -/
def validateS (jl : String → Except String Json) (input : RawInput) (s : ValidatorState) :
    VResult × ValidatorState :=
  match parseSvg input with
  | .error exc =>
    let es := [excToError exc]
    (mkResult es [], ⟨s.metadata, es, []⟩)
  | .ok root =>
    let r1 := checkRootAttributes root
    let r2 := checkTitleAndDesc root
    let ex := extractAndValidateMetadata jl root
    let meta := match ex.mdSet with
      | some md => some md
      | none => s.metadata
    match ex.raised with
    | some exc =>
      let es := r1.1 ++ r2.1 ++ ex.errors ++ [excToError exc]
      let ws := r1.2 ++ r2.2 ++ ex.warnings
      (mkResult es ws, ⟨meta, es, ws⟩)
    | none =>
      let r4 := checkEmbeddedStylesheet root
      let r5 := checkSemanticGroups root
      let corr := checkConceptGroupCorrespondence root meta
      let es := match corr.raised with
        | some exc => r1.1 ++ r2.1 ++ ex.errors ++ r4.1 ++ r5.1 ++ corr.errors ++ [excToError exc]
        | none => r1.1 ++ r2.1 ++ ex.errors ++ r4.1 ++ r5.1 ++ corr.errors
      let ws := r1.2 ++ r2.2 ++ ex.warnings ++ r4.2 ++ r5.2 ++ corr.warnings
      (mkResult es ws, ⟨meta, es, ws⟩)

/-- The state `__init__` (lines 49-58) leaves the validator in. -/
def initState : ValidatorState := ⟨none, [], []⟩

/-- `SVGValidator.validate` on a freshly constructed validator. -/
def validate (jl : String → Except String Json) (input : RawInput) : VResult :=
  (validateS jl input initState).1

end SVGValidator

/-! ## Concrete example documents -/

/-- A conformant `<title>` element with text and an id. -/
def titleElem : Elem := .mk (nsTag "title") [("id", "title")] (some "Bed") []

/-- A conformant `<desc>` element with text and an id. -/
def descElem : Elem := .mk (nsTag "desc") [("id", "desc")] (some "A bed pictogram") []

/-- A conformant `<metadata>` element whose text the example decoder maps to
`goodMeta`. -/
def metaElemGood : Elem := .mk (nsTag "metadata") [("id", "mf-accessibility")] (some "GOODJSON") []

/-- A fully conformant semantic group for the `bed` concept. -/
def bedGroup : Elem :=
  .mk (nsTag "g")
    [("id", "bed"), ("data-concept", "bed"), ("role", "group"), ("tabindex", "0"),
     ("aria-label", "bed")] none []

/-- A fully conformant pictogram document (the spec's end-to-end scenario,
minus the optional stylesheet). -/
def goodRoot : Elem :=
  .mk (nsTag "svg") [("role", "img"), ("aria-labelledby", "title desc")] none
    [titleElem, descElem, metaElemGood, bedGroup]

/-- The fields of the conformant document's one explicit concept. -/
def bedConceptFields : List (String × Json) :=
  [("role", .str "theme"), ("label", .str "bed"), ("id", .str "bed")]

/-- The fields of the conformant document's decoded metadata: all five
required fields, one explicit concept with id `bed`. -/
def goodMetaFields : List (String × Json) :=
  [("version", .str "1.0"), ("utterance", .str "the bed"), ("nsm", .str "x"),
   ("concepts", .arr [.obj bedConceptFields]),
   ("provenance", .obj [("author", .str "a")])]

/-- The decoded metadata of the conformant document. -/
def goodMeta : Json := .obj goodMetaFields

/-- An example `json.loads`: decodes the text `"GOODJSON"` to `goodMeta` and
fails on everything else with CPython's message for unparseable input. -/
def jlGood : String → Except String Json :=
  fun s => if s == "GOODJSON" then .ok goodMeta else .error "Expecting value: line 1 column 1 (char 0)"

/-- The group of C10's witness: a `data-concept` attribute present but
empty, no other attributes. -/
def c10Group : Elem := .mk (nsTag "g") [("data-concept", "")] none []

/-- The group of C1's counterexample document: it carries `data-concept` but
none of the three required attributes, so the semantic-group check would
report three errors for it — if that check ran. -/
def c1Group : Elem := .mk (nsTag "g") [("id", "g1"), ("data-concept", "thing")] none []

/-- C1's counterexample document: root, title and desc are conformant, the
`<metadata>` element is absent, and `c1Group` violates the semantic-group
rules; there is no `<defs>` stylesheet. -/
def c1Root : Elem :=
  .mk (nsTag "svg") [("role", "img"), ("aria-labelledby", "title desc")] none
    [titleElem, descElem, c1Group]

/-- The `<metadata>` element of C7's witness document: well-formed id but
undecodable text. -/
def metaElemBad : Elem := .mk (nsTag "metadata") [("id", "mf-accessibility")] (some "not json") []

/-- C7's witness document: conformant except for the undecodable metadata
text. -/
def c7Root : Elem :=
  .mk (nsTag "svg") [("role", "img"), ("aria-labelledby", "title desc")] none
    [titleElem, descElem, metaElemBad, bedGroup]

/-- C9's witness metadata: the other four required fields present,
`provenance` absent. -/
def mdNoProv : Json :=
  .obj [("version", .str "1"), ("utterance", .str "u"), ("nsm", .str "n"),
        ("concepts", .arr [.obj [("role", .str "theme"), ("label", .str "bed"),
                                 ("id", .str "bed")]])]

/-- A decoder mapping the conformant document's metadata text to
`mdNoProv`. -/
def jlNoProv : String → Except String Json :=
  fun s => if s == "GOODJSON" then .ok mdNoProv else .error "Expecting value: line 1 column 1 (char 0)"

/-- A group carrying a `data-concept` attribute whose value is empty, and no
other attributes — in particular no aria-label. -/
def c6g1 : Elem := .mk (nsTag "g") [("data-concept", "")] none []

/-- A group carrying a non-empty `data-concept` whose `aria-label` is present
but empty. -/
def c6g2 : Elem :=
  .mk (nsTag "g")
    [("id", "gb"), ("data-concept", "foo"), ("role", "group"), ("tabindex", "0"),
     ("aria-label", "")] none []

/-- C6's counterexample document root. -/
def c6Root : Elem :=
  .mk (nsTag "svg") [("role", "img"), ("aria-labelledby", "title desc")] none
    [titleElem, descElem, c6g1, c6g2]

/-- The fields of a non-implicit concept with no id. -/
def c5NoIdFields : List (String × Json) := [("role", .str "theme"), ("label", .str "t")]

/-- The fields of an implicit concept carrying a stray id. -/
def c5ImplicitFields : List (String × Json) :=
  [("role", .str "marker"), ("label", .str "m"), ("implicit", .bool true), ("id", .str "stray")]

/-! ## Claims -/

/-- C2: for every input — nonexistent path, unreadable bytes, malformed
markup, or a non-svg root — that yields no usable document, `validate`
still returns an `(is_valid, errors, warnings)` triple (the embedding is a
total function, mirroring the `try`/`except` of lines 70-81 which converts
every raised exception into an error entry), and the result carries exactly
one error: the rendered fatal failure. -/
theorem c2_unparseable_single_error (jl : String → Except String Json)
    (input : SVGValidator.RawInput) (exc : PyExc)
    (h : SVGValidator.parseSvg input = .error exc) :
    (SVGValidator.validate jl input).errors = [excToError exc] := by
  unfold SVGValidator.validate SVGValidator.validateS
  rw [h]
  rfl

/-- Witness for C2: a malformed-markup input produces exactly the one
XML-parsing error. -/
theorem c2_witness :
    SVGValidator.parseSvg (.parseError "syntax error: line 1, column 0") =
      .error (.validationError "XML parsing error: syntax error: line 1, column 0") ∧
    (SVGValidator.validate jlGood (.parseError "syntax error: line 1, column 0")).errors =
      ["XML parsing error: syntax error: line 1, column 0"] :=
  ⟨rfl,
   c2_unparseable_single_error jlGood (.parseError "syntax error: line 1, column 0")
     (.validationError "XML parsing error: syntax error: line 1, column 0") rfl⟩

/-- C3: for every decoder and every input, the returned `is_valid` is true
iff the returned error sequence is empty; warnings are a separate sequence
and never enter this computation (line 83 computes `is_valid` from
`self.errors` alone). -/
theorem c3_isValid_iff_no_errors (jl : String → Except String Json)
    (input : SVGValidator.RawInput) :
    (SVGValidator.validate jl input).isValid =
      (SVGValidator.validate jl input).errors.isEmpty := by
  unfold SVGValidator.validate SVGValidator.validateS
  cases SVGValidator.parseSvg input with
  | error exc => rfl
  | ok root =>
    dsimp only
    cases (SVGValidator.extractAndValidateMetadata jl root).raised with
    | some exc => rfl
    | none => rfl

/-- C10: a group element whose `data-concept` attribute is present but equal
to the empty string produces no finding at all: line 291's `is None` test
skips the role-without-data-concept warning, and line 297's truthiness test
skips the role/tabindex/aria-label completeness check. -/
theorem c10_empty_data_concept_no_finding (i : Nat) (g : Elem)
    (h : g.attr "data-concept" = some "") :
    SVGValidator.checkOneGroup i g = ([], []) := by
  unfold SVGValidator.checkOneGroup
  rw [h]
  rfl

/-- Witness for C10: the concrete group with `data-concept=""` yields no
findings. -/
theorem c10_witness :
    c10Group.attr "data-concept" = some "" ∧
    SVGValidator.checkOneGroup 0 c10Group = ([], []) :=
  ⟨rfl, c10_empty_data_concept_no_finding 0 c10Group rfl⟩

/-- Counterexample to C1 as stated: on a document with an absent `<metadata>`
element, `validate` returns only the single fatal metadata error and an empty
warning list, even though the semantic-group check (had it run) would have
reported three errors for `c1Group` and the stylesheet check would have
warned about the missing `<defs>`.  The structural rule checks that follow
metadata extraction in the `try` block are skipped by the raised
`ValidationError`, so their findings are not collected. -/
theorem c1_counterexample :
    (SVGValidator.validate jlGood (.parsed c1Root)).errors = ["Missing required <metadata> element"] ∧
    (SVGValidator.validate jlGood (.parsed c1Root)).warnings = [] ∧
    (SVGValidator.checkSemanticGroups c1Root).1 =
      ["Semantic group 'g1' missing required attribute: role",
       "Semantic group 'g1' missing required attribute: tabindex",
       "Semantic group 'g1' missing required attribute: aria-label"] ∧
    (SVGValidator.checkEmbeddedStylesheet c1Root).2 =
      ["No <defs> element found; embedded stylesheet recommended"] ∧
    "Semantic group 'g1' missing required attribute: role" ∉
      (SVGValidator.validate jlGood (.parsed c1Root)).errors ∧
    "No <defs> element found; embedded stylesheet recommended" ∉
      (SVGValidator.validate jlGood (.parsed c1Root)).warnings := by
  refine ⟨rfl, rfl, rfl, rfl, ?_, ?_⟩ <;> decide

/-- C1 (amended): when the metadata element is absent, empty, or undecodable
(generally: whenever `_extract_and_validate_metadata` raises), the checks
that precede it in the `try` block — root attributes and title/description —
still execute and their findings are collected alongside the single fatal
error, which comes last; the embedded-stylesheet, semantic-group and
correspondence checks are skipped and contribute nothing. -/
theorem c1_fatal_metadata_skips_later_checks (jl : String → Except String Json)
    (input : SVGValidator.RawInput) (root : Elem) (ex : SVGValidator.ExtractResult)
    (exc : PyExc)
    (hp : SVGValidator.parseSvg input = .ok root)
    (hex : SVGValidator.extractAndValidateMetadata jl root = ex)
    (hraised : ex.raised = some exc) :
    (SVGValidator.validate jl input).errors =
      (SVGValidator.checkRootAttributes root).1 ++ (SVGValidator.checkTitleAndDesc root).1 ++
        ex.errors ++ [excToError exc] ∧
    (SVGValidator.validate jl input).warnings =
      (SVGValidator.checkRootAttributes root).2 ++ (SVGValidator.checkTitleAndDesc root).2 ++
        ex.warnings := by
  unfold SVGValidator.validate SVGValidator.validateS
  rw [hp]
  dsimp only
  rw [hex, hraised]
  exact ⟨rfl, rfl⟩

/-- Witness for the amended C1: on the counterexample document the error
list is exactly the pre-metadata findings (here none) plus the fatal
error. -/
theorem c1_witness :
    SVGValidator.extractAndValidateMetadata jlGood c1Root =
      ⟨[], [], none, some (.validationError "Missing required <metadata> element")⟩ ∧
    (SVGValidator.validate jlGood (.parsed c1Root)).errors =
      (SVGValidator.checkRootAttributes c1Root).1 ++ (SVGValidator.checkTitleAndDesc c1Root).1 ++
        [] ++ ["Missing required <metadata> element"] :=
  ⟨rfl,
   (c1_fatal_metadata_skips_later_checks jlGood (.parsed c1Root) c1Root
      ⟨[], [], none, some (.validationError "Missing required <metadata> element")⟩
      (.validationError "Missing required <metadata> element") rfl rfl rfl).1⟩

/-- C7: when every rule up to metadata extraction is satisfied (no root or
title/desc errors) and the metadata element has non-blank text the decoder
rejects, `validate` returns `is_valid = false` with exactly one error, the
JSON-decoding one; schema validation and correspondence never run, so no
such errors can be added. -/
theorem c7_malformed_json_single_error (jl : String → Except String Json)
    (input : SVGValidator.RawInput) (root m : Elem) (t msg : String)
    (hp : SVGValidator.parseSvg input = .ok root)
    (hroot : (SVGValidator.checkRootAttributes root).1 = [])
    (htd : (SVGValidator.checkTitleAndDesc root).1 = [])
    (hm : findWithFallback root "metadata" = some m)
    (ht : m.text = some t)
    (hblank : textBlank (some t) = false)
    (hjl : jl t = .error msg) :
    (SVGValidator.validate jl input).errors = ["Invalid JSON in <metadata>: " ++ msg] ∧
    (SVGValidator.validate jl input).isValid = false := by
  have hex : SVGValidator.extractAndValidateMetadata jl root =
      ⟨[], (if m.attr "id" == some "mf-accessibility" then []
            else ["<metadata> id should be 'mf-accessibility', found: " ++ ((m.attr "id").getD "None")]),
       none, some (.validationError ("Invalid JSON in <metadata>: " ++ msg))⟩ := by
    unfold SVGValidator.extractAndValidateMetadata
    rw [hm]
    dsimp only
    rw [ht, hblank]
    dsimp only [Option.getD_some]
    rw [hjl]
    rfl
  unfold SVGValidator.validate SVGValidator.validateS
  rw [hp]
  dsimp only
  rw [hex]
  dsimp only
  rw [hroot, htd]
  simp [SVGValidator.mkResult, excToError]

/-- Witness for C7: the concrete document with `not json` metadata text
yields exactly the one JSON-decoding error and `is_valid = false`. -/
theorem c7_witness :
    textBlank (some "not json") = false ∧
    jlGood "not json" = .error "Expecting value: line 1 column 1 (char 0)" ∧
    (SVGValidator.validate jlGood (.parsed c7Root)).errors =
      ["Invalid JSON in <metadata>: Expecting value: line 1 column 1 (char 0)"] ∧
    (SVGValidator.validate jlGood (.parsed c7Root)).isValid = false :=
  ⟨rfl, rfl,
   (c7_malformed_json_single_error jlGood (.parsed c7Root) c7Root metaElemBad
      "not json" "Expecting value: line 1 column 1 (char 0)"
      rfl rfl rfl rfl rfl rfl rfl).1,
   (c7_malformed_json_single_error jlGood (.parsed c7Root) c7Root metaElemBad
      "not json" "Expecting value: line 1 column 1 (char 0)"
      rfl rfl rfl rfl rfl rfl rfl).2⟩

/-- On a JSON object the required-field loop of `_validate_metadata_basic`
never raises: membership tests on a dict are total. -/
theorem basicFieldLoop_obj_no_raise (fs : List (String × Json)) (l : List String) :
    (SVGValidator.basicFieldLoop (.obj fs) l).2 = none := by
  induction l with
  | nil => rfl
  | cons f rest ih =>
    unfold SVGValidator.basicFieldLoop
    simp only [pyIn]
    cases hasField fs f with
    | true => exact ih
    | false => simpa using ih

/-- The required-field loop reports each required field absent from the
object. -/
theorem basicFieldLoop_missing (fs : List (String × Json)) (l : List String) (f : String)
    (hf : f ∈ l) (habs : hasField fs f = false) :
    ("Missing required metadata field: " ++ f) ∈ (SVGValidator.basicFieldLoop (.obj fs) l).1 := by
  induction l with
  | nil => cases hf
  | cons f' rest ih =>
    unfold SVGValidator.basicFieldLoop
    simp only [pyIn]
    rcases List.mem_cons.mp hf with heq | hmem
    · subst heq
      rw [habs]
      exact List.mem_cons_self _ _
    · cases hh : hasField fs f' with
      | true => exact ih hmem
      | false => exact List.mem_cons_of_mem _ (ih hmem)

/-- C9: in the modelled configuration the schema-evaluation capability is
unavailable, so once the metadata decodes, extraction warns that schema
validation is skipped and runs the basic strategy instead — and for a
decoded object lacking any one of the five required top-level fields
(`provenance` among them), the corresponding missing-field error is in the
returned errors. -/
theorem c9_basic_missing_field (jl : String → Except String Json) (root m : Elem)
    (t f : String) (md : Json) (fs : List (String × Json))
    (hm : findWithFallback root "metadata" = some m)
    (ht : m.text = some t)
    (hblank : textBlank (some t) = false)
    (hjl : jl t = .ok md)
    (hobj : md = .obj fs)
    (hf : f ∈ SVGValidator.requiredFields)
    (habs : hasField fs f = false) :
    ("Missing required metadata field: " ++ f) ∈
      (SVGValidator.extractAndValidateMetadata jl root).errors ∧
    "Skipping JSON schema validation (jsonschema not installed)" ∈
      (SVGValidator.extractAndValidateMetadata jl root).warnings := by
  subst hobj
  have hex : SVGValidator.extractAndValidateMetadata jl root =
      ⟨(SVGValidator.validateMetadataBasic (.obj fs)).1,
       (if m.attr "id" == some "mf-accessibility" then []
        else ["<metadata> id should be 'mf-accessibility', found: " ++ ((m.attr "id").getD "None")]) ++
         ["Skipping JSON schema validation (jsonschema not installed)"],
       some (.obj fs), (SVGValidator.validateMetadataBasic (.obj fs)).2⟩ := by
    unfold SVGValidator.extractAndValidateMetadata
    rw [hm]
    dsimp only
    rw [ht, hblank]
    dsimp only [Option.getD_some]
    rw [hjl]
    rfl
  rw [hex]
  constructor
  · show _ ∈ (SVGValidator.validateMetadataBasic (.obj fs)).1
    simp only [SVGValidator.validateMetadataBasic, basicFieldLoop_obj_no_raise]
    exact List.mem_append_left _ (basicFieldLoop_missing fs _ f hf habs)
  · show _ ∈ _ ++ _
    exact List.mem_append_right _ (List.mem_cons_self _ _)

/-- Witness for C9: on the concrete document whose metadata lacks
`provenance`, the basic strategy's missing-field error and the
skipping-schema warning are both present. -/
theorem c9_witness :
    "provenance" ∈ SVGValidator.requiredFields ∧
    ("Missing required metadata field: provenance" ∈
      (SVGValidator.extractAndValidateMetadata jlNoProv goodRoot).errors ∧
     "Skipping JSON schema validation (jsonschema not installed)" ∈
      (SVGValidator.extractAndValidateMetadata jlNoProv goodRoot).warnings) :=
  ⟨by decide,
   c9_basic_missing_field jlNoProv goodRoot metaElemGood "GOODJSON" "provenance" mdNoProv
     [("version", .str "1"), ("utterance", .str "u"), ("nsm", .str "n"),
      ("concepts", .arr [.obj [("role", .str "theme"), ("label", .str "bed"),
                               ("id", .str "bed")]])]
     rfl rfl rfl rfl rfl (by decide) rfl⟩

/-- Counterexample to C6 as stated: both groups carry a `data-concept`
attribute; `c6g1` has no aria-label (or role or tabindex) at all and `c6g2`
has an empty aria-label, violating the non-empty-aria-label requirement —
yet the semantic-group check emits no error for either: line 297's
truthiness test skips empty `data-concept` values entirely, and the
aria-label entry of `required_attrs` is `None`, so only presence is checked,
never non-emptiness. -/
theorem c6_counterexample :
    c6g1.attr "data-concept" = some "" ∧ c6g1.attr "aria-label" = none ∧
    c6g2.attr "data-concept" = some "foo" ∧ c6g2.attr "aria-label" = some "" ∧
    SVGValidator.checkSemanticGroups c6Root = ([], []) :=
  ⟨rfl, rfl, rfl, rfl, rfl⟩

/-- C6 (amended): for a group whose `data-concept` attribute is present with
a non-empty value, a missing `role`, `tabindex` or `aria-label`, or a
`role`/`tabindex` value different from `group`/`0`, each produces an error
naming the group's id (or the synthesized placeholder); the aria-label value
itself is never inspected — any present value, the empty string included,
satisfies the check, so with conformant role and tabindex and any aria-label
no error at all is produced. -/
theorem c6_semantic_group_attr_errors (i : Nat) (g : Elem) (dc : String)
    (hdc : g.attr "data-concept" = some dc) (hne : dc ≠ "") :
    (g.attr "role" = none →
      ("Semantic group '" ++ SVGValidator.groupIdName i g ++ "' missing required attribute: role")
        ∈ (SVGValidator.checkOneGroup i g).1) ∧
    (∀ rv, g.attr "role" = some rv → (rv == "group") = false →
      ("Semantic group '" ++ SVGValidator.groupIdName i g ++ "' attribute 'role': expected 'group', found '" ++ rv ++ "'")
        ∈ (SVGValidator.checkOneGroup i g).1) ∧
    (g.attr "tabindex" = none →
      ("Semantic group '" ++ SVGValidator.groupIdName i g ++ "' missing required attribute: tabindex")
        ∈ (SVGValidator.checkOneGroup i g).1) ∧
    (∀ tv, g.attr "tabindex" = some tv → (tv == "0") = false →
      ("Semantic group '" ++ SVGValidator.groupIdName i g ++ "' attribute 'tabindex': expected '0', found '" ++ tv ++ "'")
        ∈ (SVGValidator.checkOneGroup i g).1) ∧
    (g.attr "aria-label" = none →
      ("Semantic group '" ++ SVGValidator.groupIdName i g ++ "' missing required attribute: aria-label")
        ∈ (SVGValidator.checkOneGroup i g).1) ∧
    (g.attr "role" = some "group" → g.attr "tabindex" = some "0" →
      ∀ av, g.attr "aria-label" = some av → (SVGValidator.checkOneGroup i g).1 = []) := by
  have hb : (dc == "") = false := beq_eq_false_iff_ne.mpr hne
  have hes : (SVGValidator.checkOneGroup i g).1 =
      (match g.attr "role" with
        | none => ["Semantic group '" ++ SVGValidator.groupIdName i g ++ "' missing required attribute: role"]
        | some rv =>
          if rv == "group" then []
          else ["Semantic group '" ++ SVGValidator.groupIdName i g ++ "' attribute 'role': expected 'group', found '" ++ rv ++ "'"]) ++
      (match g.attr "tabindex" with
        | none => ["Semantic group '" ++ SVGValidator.groupIdName i g ++ "' missing required attribute: tabindex"]
        | some tv =>
          if tv == "0" then []
          else ["Semantic group '" ++ SVGValidator.groupIdName i g ++ "' attribute 'tabindex': expected '0', found '" ++ tv ++ "'"]) ++
      (match g.attr "aria-label" with
        | none => ["Semantic group '" ++ SVGValidator.groupIdName i g ++ "' missing required attribute: aria-label"]
        | some _ => []) := by
    unfold SVGValidator.checkOneGroup
    rw [hdc]
    dsimp only
    rw [hb]
    rfl
  refine ⟨?_, ?_, ?_, ?_, ?_, ?_⟩
  · intro h
    rw [hes, h]
    simp
  · intro rv h hrv
    rw [hes, h]
    simp [hrv]
  · intro h
    rw [hes, h]
    simp
  · intro tv h htv
    rw [hes, h]
    simp [htv]
  · intro h
    rw [hes, h]
    simp
  · intro h1 h2 av h3
    rw [hes, h1, h2, h3]
    simp

/-- Witness for the amended C6: `c1Group` carries `data-concept="thing"` and
is missing aria-label (and role and tabindex); the corresponding errors
naming its id `g1` are produced. -/
theorem c6_witness :
    c1Group.attr "data-concept" = some "thing" ∧
    ("Semantic group 'g1' missing required attribute: aria-label"
        ∈ (SVGValidator.checkOneGroup 0 c1Group).1) ∧
    ("Semantic group 'g1' missing required attribute: role"
        ∈ (SVGValidator.checkOneGroup 0 c1Group).1) :=
  ⟨rfl,
   (c6_semantic_group_attr_errors 0 c1Group "thing" rfl (by decide)).2.2.2.2.1 rfl,
   (c6_semantic_group_attr_errors 0 c1Group "thing" rfl (by decide)).1 rfl⟩

/-- A field lookup that misses implies the key-membership test is false. -/
theorem lookupField_none_not_has (fs : List (String × Json)) (k : String)
    (h : lookupField fs k = none) : hasField fs k = false := by
  induction fs with
  | nil => rfl
  | cons p rest ih =>
    cases p with
    | mk k' v =>
      unfold lookupField at h
      by_cases hk : (k' == k) = true
      · rw [if_pos hk] at h; cases h
      · rw [if_neg hk] at h
        unfold hasField at ih ⊢
        simp only [List.any_cons]
        rw [Bool.not_eq_true] at hk
        simp [hk, ih h]

/-- A field lookup that hits implies the key-membership test is true. -/
theorem lookupField_some_has (fs : List (String × Json)) (k : String) (v : Json)
    (h : lookupField fs k = some v) : hasField fs k = true := by
  induction fs with
  | nil => cases h
  | cons p rest ih =>
    cases p with
    | mk k' w =>
      unfold lookupField at h
      unfold hasField
      simp only [List.any_cons]
      by_cases hk : (k' == k) = true
      · rw [hk, Bool.true_or]
      · rw [if_neg hk] at h
        rw [Bool.not_eq_true] at hk
        rw [hk, Bool.false_or]
        exact ih h

/-- A field lookup that hits implies the object is non-empty (hence
truthy). -/
theorem lookupField_some_not_nil (fs : List (String × Json)) (k : String) (v : Json)
    (h : lookupField fs k = some v) : fs.isEmpty = false := by
  cases fs with
  | nil => cases h
  | cons p rest => rfl

/-- On object metadata with a `concepts` field holding an array, the
correspondence stage reduces to the concept loop over the document's group
ids: the guards at line 318 pass and no exception is raised before the
loop. -/
theorem corr_stage_obj (root : Elem) (fs : List (String × Json)) (cs : List Json)
    (hc : lookupField fs "concepts" = some (.arr cs)) :
    SVGValidator.checkConceptGroupCorrespondence root (some (.obj fs)) =
      ⟨(SVGValidator.corrLoop (SVGValidator.groupIdsOf root) cs).1,
       (SVGValidator.corrLoop (SVGValidator.groupIdsOf root) cs).2.1,
       (SVGValidator.corrLoop (SVGValidator.groupIdsOf root) cs).2.2⟩ := by
  have hne := lookupField_some_not_nil fs _ _ hc
  have hhas := lookupField_some_has fs _ _ hc
  have htr : (Json.obj fs).truthy = true := by
    show (!fs.isEmpty) = true
    rw [hne]
    rfl
  have hin : pyIn "concepts" (Json.obj fs) = .ok true := by
    show Except.ok (hasField fs "concepts") = .ok true
    rw [hhas]
  have hsub : pySubscript (Json.obj fs) "concepts" = .ok (.arr cs) := by
    unfold pySubscript
    dsimp only
    rw [hc]
  unfold SVGValidator.checkConceptGroupCorrespondence
  dsimp only
  rw [htr, hin, hsub]
  rfl

/-- A non-implicit concept whose per-concept correspondence findings carry
no error must have a truthy string id that is among the group ids. -/
theorem corrConcept_ok_no_error (gids : List String) (cfs : List (String × Json))
    (out : List String × List String)
    (himp : ((lookupField cfs "implicit").getD (Json.bool false)).truthy = false)
    (hok : SVGValidator.corrConceptFindings gids (.obj cfs) = .ok out)
    (hnil : out.1 = []) :
    ∃ s, lookupField cfs "id" = some (.str s) ∧ s ≠ "" ∧ s ∈ gids := by
  unfold SVGValidator.corrConceptFindings at hok
  dsimp only at hok
  rw [himp] at hok
  cases hid : optTruthy (lookupField cfs "id") with
  | false =>
    rw [hid] at hok
    dsimp at hok
    injection hok with h
    rw [← h] at hnil
    simp at hnil
  | true =>
    rw [hid] at hok
    dsimp at hok
    cases hmem : SVGValidator.idInGroupIds (lookupField cfs "id") gids with
    | false =>
      rw [hmem] at hok
      dsimp at hok
      injection hok with h
      rw [← h] at hnil
      simp at hnil
    | true =>
      cases hl : lookupField cfs "id" with
      | none => rw [hl] at hid; cases hid
      | some v =>
        cases v with
        | str s =>
          refine ⟨s, rfl, ?_, ?_⟩
          · rw [hl] at hid
            unfold optTruthy Json.truthy at hid
            simpa using hid
          · rw [hl] at hmem
            unfold SVGValidator.idInGroupIds at hmem
            simpa using hmem
        | null => rw [hl] at hmem; cases hmem
        | bool b => rw [hl] at hmem; cases hmem
        | num n => rw [hl] at hmem; cases hmem
        | arr xs => rw [hl] at hmem; cases hmem
        | obj ofs => rw [hl] at hmem; cases hmem

/-- If the whole concept loop produced no error and no exception, every
concept's own findings were exception-free and error-free. -/
theorem corrLoop_no_error_all (gids : List String) (cs : List Json)
    (h1 : (SVGValidator.corrLoop gids cs).1 = [])
    (h2 : (SVGValidator.corrLoop gids cs).2.2 = none) :
    ∀ c ∈ cs, ∃ out, SVGValidator.corrConceptFindings gids c = .ok out ∧ out.1 = [] := by
  induction cs with
  | nil => intro c hc; cases hc
  | cons c' rest ih =>
    intro c hc
    unfold SVGValidator.corrLoop at h1 h2
    cases hcf : SVGValidator.corrConceptFindings gids c' with
    | error e =>
      rw [hcf] at h2
      cases h2
    | ok rc =>
      rw [hcf] at h1 h2
      dsimp at h1 h2
      have hab := List.append_eq_nil.mp h1
      rcases List.mem_cons.mp hc with rfl | hmem
      · exact ⟨rc, hcf, hab.1⟩
      · exact ih hab.2 h2 c hmem

/-- C4: (i) subset direction, through the whole pipeline: if parsing
succeeded, the metadata decoded to an object with a `concepts` array, and
`validate` returned `is_valid = true`, then every non-implicit concept
object in that array carries a non-empty string id that appears among the
(truthy) id attributes of the document's group elements; (ii) converse, at
the per-concept check: a non-implicit concept whose truthy string id is
absent from the group-id set produces exactly the error naming that id and
stating there is no corresponding `<g>` element. -/
theorem c4_correspondence_subset :
    (∀ (jl : String → Except String Json) (input : SVGValidator.RawInput) (root : Elem)
       (e3 w3 : List String) (md : Json) (fs : List (String × Json)) (cs : List Json),
      SVGValidator.parseSvg input = .ok root →
      SVGValidator.extractAndValidateMetadata jl root = ⟨e3, w3, some md, none⟩ →
      md = .obj fs → lookupField fs "concepts" = some (.arr cs) →
      (SVGValidator.validate jl input).isValid = true →
      ∀ c ∈ cs, ∀ cfs, c = Json.obj cfs →
        ((lookupField cfs "implicit").getD (Json.bool false)).truthy = false →
        ∃ s, lookupField cfs "id" = some (.str s) ∧ s ≠ "" ∧
          s ∈ SVGValidator.groupIdsOf root) ∧
    (∀ (gids : List String) (cfs : List (String × Json)) (s : String),
      ((lookupField cfs "implicit").getD (Json.bool false)).truthy = false →
      lookupField cfs "id" = some (.str s) → s ≠ "" → s ∉ gids →
      SVGValidator.corrConceptFindings gids (.obj cfs) =
        .ok (["Metadata concept '" ++ s ++ "' has no corresponding <g> element in the SVG"], [])) := by
  constructor
  · intro jl input root e3 w3 md fs cs hp hex hobj hc hvalid c hcmem cfs hceq himp
    subst hobj
    subst hceq
    unfold SVGValidator.validate SVGValidator.validateS at hvalid
    rw [hp] at hvalid
    dsimp only at hvalid
    rw [hex] at hvalid
    dsimp only at hvalid
    rw [corr_stage_obj root fs cs hc] at hvalid
    dsimp only at hvalid
    cases hx : (SVGValidator.corrLoop (SVGValidator.groupIdsOf root) cs).2.2 with
    | some exc =>
      rw [hx] at hvalid
      simp [SVGValidator.mkResult] at hvalid
    | none =>
      rw [hx] at hvalid
      simp [SVGValidator.mkResult, List.isEmpty_iff, List.append_eq_nil] at hvalid
      have hL : (SVGValidator.corrLoop (SVGValidator.groupIdsOf root) cs).1 = [] := by
        tauto
      obtain ⟨out, hok, hnil⟩ :=
        corrLoop_no_error_all _ cs hL hx (Json.obj cfs) hcmem
      exact corrConcept_ok_no_error _ cfs out himp hok hnil
  · intro gids cfs s himp hid hs hmem
    have h1 : optTruthy (some (Json.str s)) = true := by
      show (s != "") = true
      simpa using hs
    have h2 : SVGValidator.idInGroupIds (some (Json.str s)) gids = false := by
      show gids.contains s = false
      simpa using hmem
    unfold SVGValidator.corrConceptFindings
    dsimp only
    rw [himp, hid, h1, h2]
    rfl

/-- Witness for C4: on the conformant document the subset conclusion holds
for the `bed` concept, and the same concept against an empty group-id set
produces the no-corresponding-element error. -/
theorem c4_witness :
    ((lookupField bedConceptFields "implicit").getD (Json.bool false)).truthy = false ∧
    (∃ s, lookupField bedConceptFields "id" = some (.str s) ∧ s ≠ "" ∧
       s ∈ SVGValidator.groupIdsOf goodRoot) ∧
    SVGValidator.corrConceptFindings [] (.obj bedConceptFields) =
      .ok (["Metadata concept 'bed' has no corresponding <g> element in the SVG"], []) :=
  ⟨rfl,
   c4_correspondence_subset.1 jlGood (.parsed goodRoot) goodRoot
     [] ["Skipping JSON schema validation (jsonschema not installed)"] goodMeta
     goodMetaFields [Json.obj bedConceptFields]
     rfl rfl rfl rfl rfl (Json.obj bedConceptFields) (List.mem_singleton.mpr rfl)
     bedConceptFields rfl rfl,
   c4_correspondence_subset.2 [] bedConceptFields "bed" rfl rfl (by decide) (by decide)⟩

/-- C5: (i) a concept object whose `implicit` field is absent or `false`
and whose `id` field is absent yields the correspondence error naming its
role, and the basic strategy's missing-id error naming its role and index;
(ii) a concept whose `implicit` is `true` and which nevertheless carries a
truthy id yields the implicit-with-id warning and no error from the
correspondence check, and (given `role` and `label` present) no error from
the basic strategy either — so this finding alone cannot make `is_valid`
false. -/
theorem c5_concept_id_requiredness :
    (∀ (i : Nat) (gids : List String) (cfs : List (String × Json)) (r : String),
      (lookupField cfs "implicit" = none ∨ lookupField cfs "implicit" = some (Json.bool false)) →
      lookupField cfs "id" = none →
      lookupField cfs "role" = some (.str r) →
      SVGValidator.corrConceptFindings gids (.obj cfs) =
        .ok (["Concept with role '" ++ r ++ "' is not marked as implicit but has no 'id' field"], []) ∧
      ("Missing required field 'id' in metadata.concepts[" ++ toString i ++ "] (role: " ++ r ++ "). Explicit concepts must have an 'id' field.")
          ∈ SVGValidator.basicConceptFindings i (.obj cfs)) ∧
    (∀ (i : Nat) (gids : List String) (cfs : List (String × Json)) (v : Json),
      lookupField cfs "implicit" = some (.bool true) →
      lookupField cfs "id" = some v → v.truthy = true →
      SVGValidator.corrConceptFindings gids (.obj cfs) =
        .ok ([], ["Concept '" ++ pyStr v ++ "' is marked as implicit but has an 'id' field. Implicit concepts typically don't have corresponding SVG groups."]) ∧
      (hasField cfs "role" = true → hasField cfs "label" = true →
        SVGValidator.basicConceptFindings i (.obj cfs) = [])) := by
  constructor
  · intro i gids cfs r himp hid hrole
    have himpf : ((lookupField cfs "implicit").getD (Json.bool false)).truthy = false := by
      rcases himp with h | h <;> rw [h] <;> rfl
    have hhas : hasField cfs "id" = false := lookupField_none_not_has cfs "id" hid
    constructor
    · unfold SVGValidator.corrConceptFindings
      dsimp only
      rw [himpf, hid, hrole]
      rfl
    · unfold SVGValidator.basicConceptFindings
      dsimp only
      rw [himpf, hhas, hrole]
      simp [pyStr]
  · intro i gids cfs v himp hid htr
    have himpt : ((lookupField cfs "implicit").getD (Json.bool false)).truthy = true := by
      rw [himp]; rfl
    constructor
    · unfold SVGValidator.corrConceptFindings
      dsimp only
      rw [himpt, hid]
      dsimp only [optTruthy]
      rw [htr]
      rfl
    · intro hr hl
      unfold SVGValidator.basicConceptFindings
      dsimp only
      rw [himpt, hr, hl]
      rfl

/-- Witness for C5: both halves at concrete concepts. -/
theorem c5_witness :
    lookupField c5NoIdFields "id" = none ∧
    SVGValidator.corrConceptFindings ["bed"] (.obj c5NoIdFields) =
      .ok (["Concept with role 'theme' is not marked as implicit but has no 'id' field"], []) ∧
    ("Missing required field 'id' in metadata.concepts[0] (role: theme). Explicit concepts must have an 'id' field."
      ∈ SVGValidator.basicConceptFindings 0 (.obj c5NoIdFields)) ∧
    SVGValidator.corrConceptFindings ["bed"] (.obj c5ImplicitFields) =
      .ok ([], ["Concept 'stray' is marked as implicit but has an 'id' field. Implicit concepts typically don't have corresponding SVG groups."]) ∧
    SVGValidator.basicConceptFindings 0 (.obj c5ImplicitFields) = [] :=
  ⟨rfl,
   (c5_concept_id_requiredness.1 0 ["bed"] c5NoIdFields "theme" (Or.inl rfl) rfl rfl).1,
   (c5_concept_id_requiredness.1 0 ["bed"] c5NoIdFields "theme" (Or.inl rfl) rfl rfl).2,
   (c5_concept_id_requiredness.2 0 ["bed"] c5ImplicitFields (.str "stray") rfl rfl rfl).1,
   (c5_concept_id_requiredness.2 0 ["bed"] c5ImplicitFields (.str "stray") rfl rfl rfl).2 rfl rfl⟩

/-- When `_extract_and_validate_metadata` completes without raising,
`self.metadata` was freshly assigned: every completing path passes through
the successful `json.loads` at line 173. -/
theorem extract_complete_mdSet (jl : String → Except String Json) (root : Elem)
    (h : (SVGValidator.extractAndValidateMetadata jl root).raised = none) :
    ∃ md, (SVGValidator.extractAndValidateMetadata jl root).mdSet = some md := by
  unfold SVGValidator.extractAndValidateMetadata at h ⊢
  cases hm : findWithFallback root "metadata" with
  | none =>
    rw [hm] at h
    dsimp only at h
    cases h
  | some m =>
    rw [hm] at h
    dsimp only at h ⊢
    by_cases hb : textBlank m.text = true
    · rw [if_pos hb] at h; cases h
    · rw [if_neg hb] at h ⊢
      cases hj : jl ((m.text).getD "") with
      | error msg => rw [hj] at h; cases h
      | ok md => exact ⟨md, rfl⟩

/-- The returned triple of a validation run does not depend on the state the
validator object was left in by earlier runs: `self.errors` and
`self.warnings` are reset on entry (lines 67-68) and `self.metadata`, the
only other field the run reads, is freshly assigned before the one check
that reads it can run. -/
theorem validateS_result_state_independent (jl : String → Except String Json)
    (input : SVGValidator.RawInput) (s1 s2 : SVGValidator.ValidatorState) :
    (SVGValidator.validateS jl input s1).1 = (SVGValidator.validateS jl input s2).1 := by
  unfold SVGValidator.validateS
  cases hp : SVGValidator.parseSvg input with
  | error exc => rfl
  | ok root =>
    dsimp only
    cases hr : (SVGValidator.extractAndValidateMetadata jl root).raised with
    | some exc => rfl
    | none =>
      obtain ⟨md, hmd⟩ := extract_complete_mdSet jl root hr
      rw [hmd]

/-- C8: running `validate` twice on the same unchanged input returns
identical results — in particular byte-for-byte equal error and warning
sequences, in the same order and of the same length: the state the first
run leaves behind (whatever state `s` the validator started in) does not
leak into the second run's result. -/
theorem c8_idempotent (jl : String → Except String Json) (input : SVGValidator.RawInput)
    (s : SVGValidator.ValidatorState) :
    (SVGValidator.validateS jl input ((SVGValidator.validateS jl input s).2)).1 =
      (SVGValidator.validateS jl input s).1 :=
  validateS_result_state_independent jl input ((SVGValidator.validateS jl input s).2) s

end MFSchema
